import Mathlib

/-!
Verification of the milestone-verification pipeline in
`backend/src/agents/milestone_verifier.py` (class `MilestoneVerifierAgent`).

Scores are Python floats in the source; the decision logic only ever uses
exact decimal constants and convex combinations, so we embed scores as
rationals (`ℚ`), with decimal literals denoting the exact decimal values.
External effects (the knowledge-graph query, the remote verdict call, the
agent transport) are embedded as explicit inputs: a fallible call becomes an
`Except` value, and the handler's timestamp is passed in as data.
-/

namespace AutoCrowd

/-- Evidence analysis structure produced by `analyze_evidence`
(fields `relevance`, `completeness`, `authenticity`, `reasoning`,
`metadata`).  `metadata` is a string-keyed mapping in the source; we embed
it as an association list. -/
structure EvidenceAnalysis where
  relevance : ℚ
  completeness : ℚ
  authenticity : ℚ
  reasoning : String
  metadata : List (String × String)
  deriving Repr, DecidableEq

/-- Agent verdict structure produced by `get_agent_verdict` /
`get_mock_agent_response` (fields `approved`, `confidence`, `reasoning`,
`recommendations`). -/
structure AgentVerdict where
  approved : Bool
  confidence : ℚ
  reasoning : String
  recommendations : List String
  deriving Repr, DecidableEq

/-- The `details` sub-dictionary of the final result built by
`combine_results`. -/
structure FinalDetails where
  evidence_analysis : EvidenceAnalysis
  agent_verdict : AgentVerdict
  combined_score : ℚ
  deriving Repr, DecidableEq

/-- The final result dictionary built by `combine_results`
(keys `verdict`, `confidence`, `reasoning`, `details`). -/
structure FinalResult where
  verdict : String
  confidence : ℚ
  reasoning : String
  details : FinalDetails
  deriving Repr, DecidableEq

/-- The evidence score computed inside `combine_results`
(lines 348-352): `relevance * 0.4 + completeness * 0.3 + authenticity * 0.3`. -/
def evidence_score (ea : EvidenceAnalysis) : ℚ :=
  ea.relevance * 0.4 + ea.completeness * 0.3 + ea.authenticity * 0.3

/-- The combined confidence computed inside `combine_results`
(lines 343-358): `evidence_score * evidence_weight + confidence * agent_weight`
with `evidence_weight = 0.4` and `agent_weight = 0.6`. -/
def combined_confidence (ea : EvidenceAnalysis) (av : AgentVerdict) : ℚ :=
  evidence_score ea * 0.4 + av.confidence * 0.6

/-- `combine_results` (lines 332-379).  `confidence_threshold` is the
instance attribute read from `CONFIDENCE_THRESHOLD` (default 0.8),
passed here explicitly.  The three-way verdict branches mirror the source's
`if`/`elif`/`else` order exactly. -/
def combine_results (confidence_threshold : ℚ) (ea : EvidenceAnalysis)
    (av : AgentVerdict) : FinalResult :=
  let cc := combined_confidence ea av
  { verdict :=
      if confidence_threshold ≤ cc ∧ av.approved = true then "approved"
      else if cc < 1 - confidence_threshold ∨ ¬ av.approved = true then "rejected"
      else "uncertain"
    confidence := cc
    reasoning := ea.reasoning ++ ". " ++ av.reasoning
    details :=
      { evidence_analysis := ea
        agent_verdict := av
        combined_score := cc } }

/-- Two-decimal rendering of a rational, used only for the mock reasoning
string (embeds Python's `:.2f` formatting of the score; rounding ties are
immaterial for the properties proved here). -/
def format2 (q : ℚ) : String :=
  let c : Int := round (q * 100)
  toString (c / 100) ++ "." ++
    (if (c % 100).natAbs < 10 then "0" else "") ++ toString (c % 100).natAbs

/-- `get_mock_agent_response` (lines 296-330).  The source receives the
agent-request dictionary and reads `context.description` and
`context.evidence_analysis` out of it; those two values and the instance's
`confidence_threshold` are the only data it uses, so they are the
parameters here.  Bonuses: +0.2 for a non-empty description longer than 50
characters, +0.2 for relevance > 0.7, +0.1 for completeness > 0.7; the sum
is capped at 1.0 and compared (≥) against the threshold. -/
def get_mock_agent_response (confidence_threshold : ℚ) (description : String)
    (ea : EvidenceAnalysis) : AgentVerdict :=
  let base0 : ℚ := 0.5
  let base1 := if description ≠ "" ∧ 50 < description.length
    then base0 + 0.2 else base0
  let base2 := if (0.7 : ℚ) < ea.relevance then base1 + 0.2 else base1
  let base3 := if (0.7 : ℚ) < ea.completeness then base2 + 0.1 else base2
  let confidence := min base3 1.0
  { approved := decide (confidence_threshold ≤ confidence)
    confidence := confidence
    reasoning := "Mock agent analysis: Description length="
      ++ toString description.length
      ++ ", Evidence relevance=" ++ format2 ea.relevance
    recommendations :=
      ["Consider providing more detailed evidence",
       "Ensure milestone deliverables are clearly defined"] }

/-- The optional-field response of the MeTTa knowledge-graph query, as read
by `analyze_evidence` via `.get(key, default)` (lines 166-172). -/
structure KGResponse where
  relevance : Option ℚ
  completeness : Option ℚ
  authenticity : Option ℚ
  reasoning : Option String
  metadata : Option (List (String × String))
  deriving Repr, DecidableEq

/-- `analyze_evidence` (lines 136-185).  The remote `metta_client.query`
call either returns a response or raises; we embed that outcome as an
`Except` input.  On success each field defaults as in the source; on any
error the neutral fallback analysis is returned (lines 177-185). -/
def analyze_evidence (response : Except String KGResponse) : EvidenceAnalysis :=
  match response with
  | .ok r =>
      { relevance := r.relevance.getD 0.5
        completeness := r.completeness.getD 0.5
        authenticity := r.authenticity.getD 0.5
        reasoning := r.reasoning.getD "Evidence analysis completed"
        metadata := r.metadata.getD [] }
  | .error e =>
      { relevance := 0.5
        completeness := 0.5
        authenticity := 0.5
        reasoning := "Evidence analysis failed: " ++ e
        metadata := [] }

/-- The dictionary returned by `verify_milestone`'s `except` block
(lines 129-134): keys `verdict`, `confidence`, `reasoning`, `error`. -/
structure VerifyFailure where
  verdict : String
  confidence : ℚ
  reasoning : String
  error : String
  deriving Repr, DecidableEq

/-- The value `verify_milestone` returns: the pipeline's `FinalResult` on
success, or the best-effort failure dictionary from its `except` block. -/
inductive VerifyOutput where
  | success (r : FinalResult)
  | failure (r : VerifyFailure)
  deriving Repr, DecidableEq

/-- `verify_milestone` (lines 86-134) with its three-stage pipeline body
embedded as an `Except` outcome: `.ok r` when the stages produce a final
result, `.error e` when an exception with message `e` escapes the body.
The `except` block turns the exception into an "uncertain, confidence 0.0"
dictionary instead of propagating it. -/
def verify_milestone (body : Except String FinalResult) : VerifyOutput :=
  match body with
  | .ok r => .success r
  | .error e =>
      .failure
        { verdict := "uncertain"
          confidence := 0.0
          reasoning := "Verification failed: " ++ e
          error := e }

/-- The envelope `handle_verification_request` sends back to the sender
(lines 60-84): a `verification_result` envelope on success, a
`verification_error` envelope when an exception escapes.  `request_id` is
`msg.get("request_id")` (absent key gives `none`); the timestamp is
environment data passed in. -/
inductive ResponseEnvelope where
  | verification_result (request_id : Option String) (result : VerifyOutput)
      (timestamp : String)
  | verification_error (request_id : Option String) (error : String)
      (timestamp : String)
  deriving Repr, DecidableEq

/-- `handle_verification_request` (lines 60-84).  The `try` body (the
`verify_milestone` call plus the successful send) is embedded as an
`Except` outcome; the `except` block answers with the error envelope. -/
def handle_verification_request (request_id : Option String) (timestamp : String)
    (body : Except String VerifyOutput) : ResponseEnvelope :=
  match body with
  | .ok r => .verification_result request_id r timestamp
  | .error e => .verification_error request_id e timestamp

end AutoCrowd

namespace AutoCrowd

/-- C1: `combine_results` computes
`evidence_score = 0.4·relevance + 0.3·completeness + 0.3·authenticity` and
`combined_confidence = 0.4·evidence_score + 0.6·confidence`, with these fixed
weights, and the returned result's `confidence` field is exactly this
combined confidence. -/
theorem combine_results_confidence_formula (t : ℚ) (ea : EvidenceAnalysis)
    (av : AgentVerdict) :
    evidence_score ea
      = 0.4 * ea.relevance + 0.3 * ea.completeness + 0.3 * ea.authenticity ∧
    combined_confidence ea av = 0.4 * evidence_score ea + 0.6 * av.confidence ∧
    (combine_results t ea av).confidence = combined_confidence ea av := by
  refine ⟨by unfold evidence_score; ring, by unfold combined_confidence; ring, rfl⟩

/-- C2: the verdict is `"approved"` exactly when the combined confidence is
at least the threshold (inclusively) and the agent verdict is approved; this
condition is the first branch tested. -/
theorem combine_results_approved_iff (t : ℚ) (ea : EvidenceAnalysis)
    (av : AgentVerdict) :
    (combine_results t ea av).verdict = "approved" ↔
      t ≤ combined_confidence ea av ∧ av.approved = true := by
  unfold combine_results
  dsimp only
  split_ifs with h1 h2
  · simp [h1]
  · simp only [String.reduceEq, false_iff]
    exact h1
  · simp only [String.reduceEq, false_iff]
    exact h1

/-- C3: with `approved = false` the verdict is always `"rejected"` (never
`"approved"`) whatever the confidences; `"uncertain"` is returned exactly
when `approved = true` and the combined confidence lies in
`[1 - threshold, threshold)`. -/
theorem combine_results_rejected_uncertain (t : ℚ) (ea : EvidenceAnalysis)
    (av : AgentVerdict) :
    (av.approved = false →
      (combine_results t ea av).verdict = "rejected" ∧
      (combine_results t ea av).verdict ≠ "approved") ∧
    ((combine_results t ea av).verdict = "uncertain" ↔
      av.approved = true ∧ 1 - t ≤ combined_confidence ea av ∧
        combined_confidence ea av < t) := by
  unfold combine_results
  dsimp only
  constructor
  · intro h
    rw [h]
    simp
  · split_ifs with h1 h2
    · simp only [String.reduceEq, false_iff]
      rintro ⟨-, -, hlt⟩
      exact absurd h1.1 (not_le.mpr hlt)
    · simp only [String.reduceEq, false_iff]
      rintro ⟨ha, hge, -⟩
      rcases h2 with h2 | h2
      · linarith
      · exact h2 ha
    · push_neg at h2
      simp only [true_iff]
      have hap : av.approved = true := h2.2
      have hge : 1 - t ≤ combined_confidence ea av := h2.1
      have hlt : combined_confidence ea av < t := by
        by_contra hc
        push_neg at hc
        exact h1 ⟨hc, hap⟩
      exact ⟨hap, hge, hlt⟩

/-- C4: the mock generator is the pure function of
(threshold, description, evidence analysis) given by base 0.5, +0.2 for a
non-empty description longer than 50 characters, +0.2 for relevance > 0.7,
+0.1 for completeness > 0.7, capped at 1.0; `approved` holds exactly when
the resulting confidence reaches the threshold; the recommendations are a
fixed two-element list; and identical inputs give the identical verdict. -/
theorem get_mock_agent_response_spec (t : ℚ) (d : String)
    (ea : EvidenceAnalysis) :
    (get_mock_agent_response t d ea).confidence
        = min (0.5 + (if d ≠ "" ∧ 50 < d.length then (0.2 : ℚ) else 0)
                   + (if (0.7 : ℚ) < ea.relevance then (0.2 : ℚ) else 0)
                   + (if (0.7 : ℚ) < ea.completeness then (0.1 : ℚ) else 0)) 1 ∧
    ((get_mock_agent_response t d ea).approved = true ↔
      t ≤ (get_mock_agent_response t d ea).confidence) ∧
    (get_mock_agent_response t d ea).recommendations
        = ["Consider providing more detailed evidence",
           "Ensure milestone deliverables are clearly defined"] ∧
    (∀ d2 ea2, d2 = d → ea2 = ea →
      get_mock_agent_response t d2 ea2 = get_mock_agent_response t d ea) := by
  refine ⟨?_, ?_, rfl, ?_⟩
  · unfold get_mock_agent_response
    dsimp only
    split_ifs <;> norm_num
  · unfold get_mock_agent_response
    dsimp only
    simp
  · rintro d2 ea2 rfl rfl
    rfl

/-- C5: when all evidence sub-scores and the agent confidence are in [0,1],
the evidence score and the combined confidence returned by
`combine_results` are also in [0,1] (convex weighted sums). -/
theorem combine_results_confidence_bounds (t : ℚ) (ea : EvidenceAnalysis)
    (av : AgentVerdict)
    (hr0 : 0 ≤ ea.relevance) (hr1 : ea.relevance ≤ 1)
    (hc0 : 0 ≤ ea.completeness) (hc1 : ea.completeness ≤ 1)
    (ha0 : 0 ≤ ea.authenticity) (ha1 : ea.authenticity ≤ 1)
    (hv0 : 0 ≤ av.confidence) (hv1 : av.confidence ≤ 1) :
    0 ≤ evidence_score ea ∧ evidence_score ea ≤ 1 ∧
    0 ≤ (combine_results t ea av).confidence ∧
    (combine_results t ea av).confidence ≤ 1 := by
  have hev : evidence_score ea
      = ea.relevance * 0.4 + ea.completeness * 0.3 + ea.authenticity * 0.3 := rfl
  have hcc : (combine_results t ea av).confidence
      = (ea.relevance * 0.4 + ea.completeness * 0.3 + ea.authenticity * 0.3) * 0.4
        + av.confidence * 0.6 := rfl
  rw [hev, hcc]
  norm_num
  refine ⟨by linarith, by linarith, by linarith, by linarith⟩

/-- C6: on any error from the knowledge-service call, `analyze_evidence`
returns the neutral analysis: all three sub-scores exactly 0.5, a reasoning
string containing the error text, and empty metadata — it never propagates
the error. -/
theorem analyze_evidence_error_neutral (e : String) :
    analyze_evidence (.error e)
      = { relevance := 0.5, completeness := 0.5, authenticity := 0.5,
          reasoning := "Evidence analysis failed: " ++ e, metadata := [] } ∧
    ∃ p, (analyze_evidence (.error e)).reasoning = p ++ e :=
  ⟨rfl, "Evidence analysis failed: ", rfl⟩

/-- C7: when an exception escapes the handler's try body it answers with a
`verification_error` envelope carrying the request id, error message and
timestamp; and when an exception escapes `verify_milestone`'s pipeline,
its catch block produces the best-effort "uncertain, confidence 0.0"
result instead of crashing. -/
theorem handler_error_responses (rid : Option String) (ts e f : String) :
    handle_verification_request rid ts (.error e)
      = .verification_error rid e ts ∧
    verify_milestone (.error f)
      = .failure
          { verdict := "uncertain", confidence := 0.0,
            reasoning := "Verification failed: " ++ f, error := f } :=
  ⟨rfl, rfl⟩

/-- Sample evidence analysis with the neutral sub-scores. -/
def EAneutral : EvidenceAnalysis :=
  { relevance := 0.5, completeness := 0.5, authenticity := 0.5,
    reasoning := "n", metadata := [] }

/-- Sample evidence analysis with the §8 Scenario 2 sub-scores. -/
def EAstrong : EvidenceAnalysis :=
  { relevance := 0.9, completeness := 0.8, authenticity := 0.5,
    reasoning := "s", metadata := [] }

/-- Sample approved agent verdict with full confidence. -/
def AVyes : AgentVerdict :=
  { approved := true, confidence := 1, reasoning := "y", recommendations := [] }

/-- Sample non-approved agent verdict. -/
def AVno : AgentVerdict :=
  { approved := false, confidence := 0.7, reasoning := "n",
    recommendations := [] }

/-- A description of length 80, as in §8 Scenario 2. -/
def desc80 : String := String.mk (List.replicate 80 'a')

/-- C8: Scenario 2 — description of length 80,
evidence {relevance 0.9, completeness 0.8, authenticity 0.5},
threshold 0.8: the mock verdict has confidence exactly 1 and is approved,
the evidence score is 0.75, the combined confidence is 0.9, and the final
verdict is "approved". -/
theorem scenario2_approved :
    desc80.length = 80 ∧
    (get_mock_agent_response 0.8 desc80 EAstrong).confidence = 1 ∧
    (get_mock_agent_response 0.8 desc80 EAstrong).approved = true ∧
    evidence_score EAstrong = 0.75 ∧
    combined_confidence EAstrong (get_mock_agent_response 0.8 desc80 EAstrong)
      = 0.9 ∧
    (combine_results 0.8 EAstrong
        (get_mock_agent_response 0.8 desc80 EAstrong)).verdict = "approved" := by
  have hlen : desc80.length = 80 := rfl
  have hne : desc80 ≠ "" := by decide
  have hconf : (get_mock_agent_response 0.8 desc80 EAstrong).confidence = 1 := by
    norm_num [get_mock_agent_response, EAstrong, hlen, hne]
  have happ : (get_mock_agent_response 0.8 desc80 EAstrong).approved = true := by
    norm_num [get_mock_agent_response, EAstrong, hlen, hne]
  have hev : evidence_score EAstrong = 0.75 := by
    norm_num [evidence_score, EAstrong]
  have hcc : combined_confidence EAstrong
      (get_mock_agent_response 0.8 desc80 EAstrong) = 0.9 := by
    unfold combined_confidence
    rw [hev, hconf]
    norm_num
  refine ⟨hlen, hconf, happ, hev, hcc, ?_⟩
  unfold combine_results
  dsimp only
  rw [if_pos ⟨by rw [hcc]; norm_num, happ⟩]

/-- C9: the mock verdict's confidence is always in [0.5, 1]: bonuses are
only added to the 0.5 base and the sum is capped at 1. -/
theorem get_mock_agent_response_confidence_range (t : ℚ) (d : String)
    (ea : EvidenceAnalysis) :
    0.5 ≤ (get_mock_agent_response t d ea).confidence ∧
    (get_mock_agent_response t d ea).confidence ≤ 1 := by
  unfold get_mock_agent_response
  dsimp only
  constructor
  · refine le_min ?_ (by norm_num)
    split_ifs <;> norm_num
  · refine le_trans (min_le_right _ _) (by norm_num)

/-- Witness for C2 at a concrete input: strong evidence, approved verdict
with confidence 1, threshold 0.8 — the verdict is "approved". -/
theorem combine_results_approved_iff_witness :
    (combine_results 0.8 EAstrong AVyes).verdict = "approved" :=
  (combine_results_approved_iff 0.8 EAstrong AVyes).mpr
    ⟨by norm_num [combined_confidence, evidence_score, EAstrong, AVyes], rfl⟩

/-- Witness for C3 at a concrete input: a non-approved verdict is rejected
and never approved. -/
theorem combine_results_rejected_uncertain_witness :
    (combine_results 0.8 EAneutral AVno).verdict = "rejected" ∧
    (combine_results 0.8 EAneutral AVno).verdict ≠ "approved" :=
  (combine_results_rejected_uncertain 0.8 EAneutral AVno).1 rfl

/-- Witness for C4 at a concrete input: neutral evidence and an empty
description give mock confidence 0.5, and the determinism clause applies. -/
theorem get_mock_agent_response_spec_witness :
    (get_mock_agent_response 0.8 "" EAneutral).confidence = 0.5 ∧
    get_mock_agent_response 0.8 "" EAneutral
      = get_mock_agent_response 0.8 "" EAneutral := by
  have h := get_mock_agent_response_spec 0.8 "" EAneutral
  refine ⟨?_, h.2.2.2 "" EAneutral rfl rfl⟩
  rw [h.1]
  norm_num [EAneutral]

/-- Witness for C5 at a concrete input with all scores in [0,1]. -/
theorem combine_results_confidence_bounds_witness :
    0 ≤ evidence_score EAneutral ∧ evidence_score EAneutral ≤ 1 ∧
    0 ≤ (combine_results 0.8 EAneutral AVno).confidence ∧
    (combine_results 0.8 EAneutral AVno).confidence ≤ 1 :=
  combine_results_confidence_bounds 0.8 EAneutral AVno
    (by norm_num [EAneutral]) (by norm_num [EAneutral])
    (by norm_num [EAneutral]) (by norm_num [EAneutral])
    (by norm_num [EAneutral]) (by norm_num [EAneutral])
    (by norm_num [AVno]) (by norm_num [AVno])

/-- C10: the result's top-level `confidence` equals `details.combined_score`,
and `details` carries the two input structures unmodified. -/
theorem combine_results_details_audit (t : ℚ) (ea : EvidenceAnalysis)
    (av : AgentVerdict) :
    (combine_results t ea av).confidence
        = (combine_results t ea av).details.combined_score ∧
    (combine_results t ea av).details.evidence_analysis = ea ∧
    (combine_results t ea av).details.agent_verdict = av :=
  ⟨rfl, rfl, rfl⟩

end AutoCrowd
